import Mathlib

/-!
Shallow embedding of the LinkCord bridge core: the in-memory connection
graph (`BridgeCore.connections`), the bridge lifecycle operations
`AddBridge` / `RemoveBridge`, the startup rebuild `loadBridgesFromDB`
over the persistence rows returned by `GetAllActiveBridges`, and the
message fan-out `ProcessMessage`.

Go maps `map[string][]*BridgeConnection` are embedded as association
lists where an absent key is distinguishable from a key bound to an
empty list (Go nil vs empty slice). Store writes are embedded by
passing their outcome as an explicit parameter and recording in the
result whether a write was attempted.
-/

namespace LinkCord

/-- Platform tag constant `types.PlatformDiscord`. -/
def PlatformDiscord : String := "discord"

/-- Platform tag constant `types.PlatformTelegram`. -/
def PlatformTelegram : String := "telegram"

/-- In-memory directed bridge edge (`types.BridgeConnection`).
`createdAt` embeds the Go `time.Time` as an abstract tick count. -/
structure BridgeConnection where
  id : String
  sourcePlatform : String
  sourceChannelID : String
  targetPlatform : String
  targetChannelID : String
  isActive : Bool
  createdAt : Nat
  deriving DecidableEq, Repr

/-- The connection graph: Go `map[string][]*BridgeConnection` keyed by
source channel id, as an association list. A key bound to `[]` models a
present-but-empty Go slice; an absent key models Go `nil`. -/
abbrev ConnMap : Type := List (String × List BridgeConnection)

/-- Go map read returning `none` for an absent key (Go `nil` slice). -/
def mapFind? : ConnMap → String → Option (List BridgeConnection)
  | [], _ => none
  | (k, v) :: rest, key => if k = key then some v else mapFind? rest key

/-- Go map read as used by `len`/`range`: an absent key reads as the
empty list. -/
def mapGet (m : ConnMap) (key : String) : List BridgeConnection :=
  (mapFind? m key).getD []

/-- Go map assignment: replaces the binding of `key`, or adds it. -/
def mapSet : ConnMap → String → List BridgeConnection → ConnMap
  | [], key, v => [(key, v)]
  | (k, v') :: rest, key, v =>
    if k = key then (k, v) :: rest else (k, v') :: mapSet rest key v

/-- `bc.connections[key] = append(bc.connections[key], c)` with the
nil-initialisation in `AddBridge`/`loadBridgesFromDB`. -/
def appendConn (m : ConnMap) (key : String) (c : BridgeConnection) : ConnMap :=
  mapSet m key (mapGet m key ++ [c])

/-- Normalised message (`types.BridgeMessage`); `timestamp` is an
abstract tick count. -/
structure BridgeMessage where
  id : String
  sourcePlatform : String
  sourceChannelID : String
  sourceUserID : String
  username : String
  content : String
  messageType : String
  timestamp : Nat
  deriving DecidableEq, Repr

/-- A registered platform adapter (`types.Platform`). Behaviour of the
external platform is embedded as response functions:
`sendOk channel content` is whether `SendMessage` succeeds,
`fmt` is `FormatMessage`, `richOk channel msg` is whether the Discord
webhook path `SendBridgeMessage` succeeds, and `isDiscordAdapter` is
whether the runtime type assertion `platform.(*DiscordAdapter)` holds. -/
structure Adapter where
  name : String
  connected : Bool
  isDiscordAdapter : Bool
  richOk : String → BridgeMessage → Bool
  fmt : BridgeMessage → String
  sendOk : String → String → Bool

/-- Adapter registry `bc.platforms`, keyed by platform name. -/
abbrev PlatformMap : Type := String → Option Adapter

/-- `BridgeCore.RegisterPlatform`: records the adapter under its name,
overwriting any previous registration. -/
def RegisterPlatform (platforms : PlatformMap) (a : Adapter) : PlatformMap :=
  fun n => if n = a.name then some a else platforms n

/-- The errors `BridgeCore` returns (the `fmt.Errorf` messages of
`AddBridge`/`RemoveBridge`). -/
inductive BridgeError where
  | sourcePlatformNotRegistered (p : String)
  | targetPlatformNotRegistered (p : String)
  | saveFailed (e : String)
  | noBridgesFound (channel : String)
  | bridgeNotFound (targetPlatform channel : String)
  deriving DecidableEq, Repr

/-- Whether the error is one of the two not-found removal errors. -/
def BridgeError.isNotFound : BridgeError → Bool
  | .noBridgesFound _ => true
  | .bridgeNotFound _ _ => true
  | _ => false

/-- Outcome of a bridge lifecycle operation: the returned error value,
the connection graph after the call, and whether a store write was
attempted during the call. -/
structure OpResult where
  result : Except BridgeError Unit
  connections : ConnMap
  storeWriteAttempted : Bool

/-- The edge `AddBridge` constructs (forward or reverse direction). -/
def mkConn (sourcePlatform sourceChannelID targetPlatform targetChannelID : String)
    (now : Nat) : BridgeConnection :=
  { id := sourcePlatform ++ "_" ++ sourceChannelID ++ "_" ++ targetPlatform ++ "_" ++ targetChannelID
    sourcePlatform := sourcePlatform
    sourceChannelID := sourceChannelID
    targetPlatform := targetPlatform
    targetChannelID := targetChannelID
    isActive := true
    createdAt := now }

/-- The in-memory mutation of a successful `AddBridge`: append the
forward edge under the source channel and the reverse edge under the
target channel. -/
def addEdges (m : ConnMap) (sourcePlatform sourceChannelID targetPlatform targetChannelID : String)
    (now : Nat) : ConnMap :=
  appendConn
    (appendConn m sourceChannelID (mkConn sourcePlatform sourceChannelID targetPlatform targetChannelID now))
    targetChannelID (mkConn targetPlatform targetChannelID sourcePlatform sourceChannelID now)

/-- `BridgeCore.AddBridge`. Validates that both platforms are
registered, then (when a database is configured) performs the store
write `saveBridgeToDatabase`, whose outcome is the parameter `saveRes`;
only on store success is the graph mutated. -/
def AddBridge (platforms : PlatformMap) (hasDB : Bool) (saveRes : Except String Unit)
    (m : ConnMap)
    (sourcePlatform sourceChannelID targetPlatform targetChannelID : String)
    (now : Nat) : OpResult :=
  if (platforms sourcePlatform).isNone then
    ⟨.error (.sourcePlatformNotRegistered sourcePlatform), m, false⟩
  else if (platforms targetPlatform).isNone then
    ⟨.error (.targetPlatformNotRegistered targetPlatform), m, false⟩
  else if hasDB then
    match saveRes with
    | .error e => ⟨.error (.saveFailed e), m, true⟩
    | .ok _ =>
      ⟨.ok (), addEdges m sourcePlatform sourceChannelID targetPlatform targetChannelID now, true⟩
  else
    ⟨.ok (), addEdges m sourcePlatform sourceChannelID targetPlatform targetChannelID now, false⟩

/-- The `RemoveBridge` scan over `connections[sourceChannelID]`: remove
the first edge whose target platform matches, returning it and the
remaining list, or `none` when no edge matches. -/
def removeFirstByTarget : List BridgeConnection → String →
    Option (BridgeConnection × List BridgeConnection)
  | [], _ => none
  | c :: rest, tp =>
    if c.targetPlatform = tp then some (c, rest)
    else
      match removeFirstByTarget rest tp with
      | none => none
      | some (r, rest') => some (r, c :: rest')

/-- The reverse-edge scan of `RemoveBridge`: remove the first edge with
`targetChannelID = srcChan` and `targetPlatform = srcPlat`; `none` when
no reverse edge matches (in which case the Go code leaves the map entry
untouched). -/
def removeFirstReverse? : List BridgeConnection → String → String →
    Option (List BridgeConnection)
  | [], _, _ => none
  | c :: rest, srcChan, srcPlat =>
    if c.targetChannelID = srcChan ∧ c.targetPlatform = srcPlat then some rest
    else
      match removeFirstReverse? rest srcChan srcPlat with
      | none => none
      | some rest' => some (c :: rest')

/-- `BridgeCore.RemoveBridge`. The in-memory removal of the forward and
reverse edges happens first; afterwards (when a database is configured)
the store write `removeBridgeFromDatabase` is attempted, and its
outcome `removeRes` is only logged, never returned. -/
def RemoveBridge (hasDB : Bool) (removeRes : Except String Unit) (m : ConnMap)
    (sourceChannelID targetPlatform : String) : OpResult :=
  match mapFind? m sourceChannelID with
  | none => ⟨.error (.noBridgesFound sourceChannelID), m, false⟩
  | some conns =>
    match removeFirstByTarget conns targetPlatform with
    | none => ⟨.error (.bridgeNotFound targetPlatform sourceChannelID), m, false⟩
    | some (conn, rest) =>
      let m1 := mapSet m sourceChannelID rest
      let revs := mapGet m1 conn.targetChannelID
      let m2 :=
        match removeFirstReverse? revs sourceChannelID conn.sourcePlatform with
        | none => m1
        | some revs' => mapSet m1 conn.targetChannelID revs'
      ⟨.ok (), m2, hasDB⟩

/-- `BridgeCore.GetBridges`: the routes registered for a channel. -/
def GetBridges (m : ConnMap) (channelID : String) : List BridgeConnection :=
  mapGet m channelID

/-- One observable outbound delivery attempt made during fan-out:
either the Discord webhook path (`SendBridgeMessage`) or the generic
`FormatMessage` + `SendMessage` path, with its success flag. -/
inductive Attempt where
  | rich (targetPlatform targetChannel : String) (ok : Bool)
  | generic (targetPlatform targetChannel content : String) (ok : Bool)
  deriving DecidableEq, Repr

/-- Target platform of an attempt. -/
def Attempt.targetPlat : Attempt → String
  | .rich p _ _ => p
  | .generic p _ _ _ => p

/-- Target channel of an attempt. -/
def Attempt.targetChan : Attempt → String
  | .rich _ c _ => c
  | .generic _ c _ _ => c

/-- Whether the attempt's send succeeded. -/
def Attempt.succeeded : Attempt → Bool
  | .rich _ _ ok => ok
  | .generic _ _ _ ok => ok

/-- Per-edge body of the `ProcessMessage` fan-out loop: skip inactive
edges and unavailable adapters; on a Discord target whose adapter
type-asserts to `*DiscordAdapter`, try the webhook path and on failure
fall back once to the generic path (its error is assigned but not
re-checked); otherwise use the generic path. Returns the delivery
attempts performed for this edge. -/
def processConnection (platforms : PlatformMap) (msg : BridgeMessage)
    (c : BridgeConnection) : List Attempt :=
  if c.isActive = false then []
  else
    match platforms c.targetPlatform with
    | none => []
    | some a =>
      if a.connected = false then []
      else if c.targetPlatform = PlatformDiscord then
        if a.isDiscordAdapter then
          if a.richOk c.targetChannelID msg then
            [.rich c.targetPlatform c.targetChannelID true]
          else
            [.rich c.targetPlatform c.targetChannelID false,
             .generic c.targetPlatform c.targetChannelID (a.fmt msg)
               (a.sendOk c.targetChannelID (a.fmt msg))]
        else
          [.generic c.targetPlatform c.targetChannelID (a.fmt msg)
            (a.sendOk c.targetChannelID (a.fmt msg))]
      else
        [.generic c.targetPlatform c.targetChannelID (a.fmt msg)
          (a.sendOk c.targetChannelID (a.fmt msg))]

/-- `BridgeCore.ProcessMessage`: look up the routes of the message's
source channel; when there are none, return nil immediately; otherwise
fan out over every route in order. The Go function returns nil on every
path. The attempts list is the observable delivery trace. -/
def ProcessMessage (platforms : PlatformMap) (m : ConnMap) (msg : BridgeMessage) :
    List Attempt × Except BridgeError Unit :=
  let conns := mapGet m msg.sourceChannelID
  if conns.length = 0 then ([], .ok ())
  else (conns.flatMap (processConnection platforms msg), .ok ())

/-- Number of attempts in a trace aimed at a given platform/channel. -/
def countAttemptsTo (l : List Attempt) (p ch : String) : Nat :=
  (l.filter (fun a => a.targetPlat = p ∧ a.targetChan = ch)).length

/-- Persistence row of the `room_mappings` table (`models.RoomMapping`)
as read back by `GetAllActiveBridges`. -/
structure RoomMapping where
  roomID : Nat
  platform : String
  platformRoomID : String
  roomName : String
  roomType : String
  isActive : Bool
  createdAt : Nat
  deriving DecidableEq, Repr

/-- Persistence row of the `bridge_config` table (active flag only;
the other policy fields play no role in graph reconstruction). -/
structure BridgeConfigRow where
  roomID : Nat
  isActive : Bool
  deriving DecidableEq, Repr

/-- `Database.GetAllActiveBridges`: the join of active room mappings
with active bridge configs — every mapping row whose own flag is set
and whose room has an active config. -/
def GetAllActiveBridges (ms : List RoomMapping) (cfgs : List BridgeConfigRow) :
    List RoomMapping :=
  ms.filter (fun m => m.isActive && cfgs.any (fun c => c.roomID == m.roomID && c.isActive))

/-- The mappings `loadBridgesFromDB` groups under one room id. -/
def roomGroup (rows : List RoomMapping) (rid : Nat) : List RoomMapping :=
  rows.filter (fun m => m.roomID == rid)

/-- The edge `loadBridgesFromDB` constructs from a (source, target)
mapping pair of one room. -/
def mkDBConnection (rid : Nat) (s t : RoomMapping) : BridgeConnection :=
  { id := "db_" ++ toString rid ++ "_" ++ s.platform ++ "_" ++ s.platformRoomID
            ++ "_" ++ t.platform ++ "_" ++ t.platformRoomID
    sourcePlatform := s.platform
    sourceChannelID := s.platformRoomID
    targetPlatform := t.platform
    targetChannelID := t.platformRoomID
    isActive := true
    createdAt := s.createdAt }

/-- The double loop `for i, source ... for j, target ... if i == j
continue` of `loadBridgesFromDB`: for the element at position `i`, the
targets are all other elements in original order (`processed` holds the
elements before position `i`). -/
def crossPairs : List RoomMapping → List RoomMapping → List (RoomMapping × RoomMapping)
  | _, [] => []
  | processed, s :: rest =>
    ((processed ++ rest).map (fun t => (s, t))) ++ crossPairs (processed ++ [s]) rest

/-- The edges `loadBridgesFromDB` generates for one room group: rooms
with fewer than two mappings are skipped, otherwise every ordered pair
of distinct positions yields an edge. -/
def loadRoomEdges (rid : Nat) (group : List RoomMapping) : List BridgeConnection :=
  if group.length < 2 then []
  else (crossPairs [] group).map (fun p => mkDBConnection rid p.1 p.2)

/-- Room ids in first-occurrence order (the grouping keys). -/
def roomIDsOf (rows : List RoomMapping) : List Nat :=
  (rows.map (fun m => m.roomID)).dedup

/-- `BridgeCore.loadBridgesFromDB` (database present, query succeeded):
group the active rows by room id and insert every generated edge into
the connection graph under its source channel. -/
def loadBridgesFromDB (ms : List RoomMapping) (cfgs : List BridgeConfigRow) : ConnMap :=
  let rows := GetAllActiveBridges ms cfgs
  (roomIDsOf rows).foldl
    (fun acc rid =>
      (loadRoomEdges rid (roomGroup rows rid)).foldl
        (fun m e => appendConn m e.sourceChannelID e) acc)
    []

/-- Total number of edges held in a connection graph. -/
def connTotal (m : ConnMap) : Nat :=
  (m.map (fun kv => kv.2.length)).sum

/-! ### Basic lemmas about the map embedding -/

theorem mapFind?_set (m : ConnMap) (key k' : String) (v : List BridgeConnection) :
    mapFind? (mapSet m key v) k' = if key = k' then some v else mapFind? m k' := by
  induction m with
  | nil =>
    by_cases h : key = k' <;> simp [mapSet, mapFind?, h]
  | cons kv rest ih =>
    obtain ⟨k0, v0⟩ := kv
    by_cases h : k0 = key
    · subst h
      by_cases h' : k0 = k'
      · subst h'
        simp [mapSet, mapFind?]
      · simp [mapSet, mapFind?, h']
    · by_cases h' : k0 = k'
      · subst h'
        have hkey : ¬ key = k0 := fun hh => h hh.symm
        simp [mapSet, mapFind?, h, hkey]
      · simp [mapSet, mapFind?, h, h', ih]

theorem mapGet_set (m : ConnMap) (key k' : String) (v : List BridgeConnection) :
    mapGet (mapSet m key v) k' = if key = k' then v else mapGet m k' := by
  unfold mapGet
  rw [mapFind?_set]
  by_cases h : key = k' <;> simp [h]

theorem mapGet_appendConn (m : ConnMap) (key k' : String) (c : BridgeConnection) :
    mapGet (appendConn m key c) k' =
      if key = k' then mapGet m key ++ [c] else mapGet m k' := by
  unfold appendConn
  rw [mapGet_set]

theorem removeFirstByTarget_eq_none (l : List BridgeConnection) (tp : String)
    (h : ∀ c ∈ l, c.targetPlatform ≠ tp) : removeFirstByTarget l tp = none := by
  induction l with
  | nil => rfl
  | cons c rest ih =>
    have hc : c.targetPlatform ≠ tp := h c (List.mem_cons_self c rest)
    have hr : removeFirstByTarget rest tp = none :=
      ih (fun x hx => h x (List.mem_cons_of_mem _ hx))
    simp [removeFirstByTarget, hc, hr]

/-- The forward edge appended by `addEdges` is among the routes of the
source channel. -/
theorem mem_addEdges_src (m : ConnMap) (sp sc tp tc : String) (now : Nat) :
    mkConn sp sc tp tc now ∈ mapGet (addEdges m sp sc tp tc now) sc := by
  unfold addEdges
  rw [mapGet_appendConn]
  by_cases h : tc = sc
  · rw [if_pos h, mapGet_appendConn, if_pos h.symm]
    simp
  · rw [if_neg h, mapGet_appendConn, if_pos rfl]
    simp

/-- The reverse edge appended by `addEdges` is among the routes of the
target channel. -/
theorem mem_addEdges_tgt (m : ConnMap) (sp sc tp tc : String) (now : Nat) :
    mkConn tp tc sp sc now ∈ mapGet (addEdges m sp sc tp tc now) tc := by
  unfold addEdges
  rw [mapGet_appendConn, if_pos rfl]
  simp

/-- A successful `AddBridge` (both platforms registered, store write
succeeding) reports success and applies exactly the `addEdges`
mutation. -/
theorem addBridge_ok (platforms : PlatformMap) (hasDB : Bool) (m : ConnMap)
    (sp sc tp tc : String) (now : Nat) (aS aT : Adapter)
    (hS : platforms sp = some aS) (hT : platforms tp = some aT) :
    AddBridge platforms hasDB (.ok ()) m sp sc tp tc now =
      ⟨.ok (), addEdges m sp sc tp tc now, hasDB⟩ := by
  unfold AddBridge
  rw [hS, hT]
  cases hasDB <;> rfl

/-- A concrete always-available Discord adapter for witnesses. -/
def wAdapterD : Adapter :=
  { name := "discord", connected := true, isDiscordAdapter := true,
    richOk := fun _ _ => true, fmt := fun msg => msg.content,
    sendOk := fun _ _ => true }

/-- A concrete always-available Telegram adapter for witnesses. -/
def wAdapterT : Adapter :=
  { name := "telegram", connected := true, isDiscordAdapter := false,
    richOk := fun _ _ => false, fmt := fun msg => msg.content,
    sendOk := fun _ _ => true }

/-! ### Claim theorems: bridge lifecycle -/

/-- C3: for every pair of registered platforms `A`, `B` and channels
`ch1`, `ch2`, a successful `addBridge(A,ch1,B,ch2)` makes the routes of
`ch1` contain an edge targeting `(B,ch2)` and the routes of `ch2`
contain an edge targeting `(A,ch1)`: both the forward and the reverse
edge are inserted. -/
theorem claim_C3 (platforms : PlatformMap) (hasDB : Bool) (m : ConnMap)
    (A ch1 B ch2 : String) (now : Nat) (aA aB : Adapter)
    (hA : platforms A = some aA) (hB : platforms B = some aB) :
    (AddBridge platforms hasDB (.ok ()) m A ch1 B ch2 now).result = .ok () ∧
    (∃ c ∈ GetBridges (AddBridge platforms hasDB (.ok ()) m A ch1 B ch2 now).connections ch1,
       c.targetPlatform = B ∧ c.targetChannelID = ch2) ∧
    (∃ c ∈ GetBridges (AddBridge platforms hasDB (.ok ()) m A ch1 B ch2 now).connections ch2,
       c.targetPlatform = A ∧ c.targetChannelID = ch1) := by
  rw [addBridge_ok platforms hasDB m A ch1 B ch2 now aA aB hA hB]
  refine ⟨rfl, ⟨mkConn A ch1 B ch2 now, ?_, rfl, rfl⟩,
    ⟨mkConn B ch2 A ch1 now, ?_, rfl, rfl⟩⟩
  · exact mem_addEdges_src m A ch1 B ch2 now
  · exact mem_addEdges_tgt m A ch1 B ch2 now

/-- Witness for C3 at a concrete state: two registered adapters, empty
graph, bridge discord#100 to telegram#200. -/
theorem claim_C3_witness :
    (AddBridge
        (fun n => if n = "discord" then some wAdapterD else
                  if n = "telegram" then some wAdapterT else none)
        true (.ok ()) [] "discord" "100" "telegram" "200" 7).result = .ok () ∧
    (∃ c ∈ GetBridges (AddBridge
        (fun n => if n = "discord" then some wAdapterD else
                  if n = "telegram" then some wAdapterT else none)
        true (.ok ()) [] "discord" "100" "telegram" "200" 7).connections "100",
       c.targetPlatform = "telegram" ∧ c.targetChannelID = "200") ∧
    (∃ c ∈ GetBridges (AddBridge
        (fun n => if n = "discord" then some wAdapterD else
                  if n = "telegram" then some wAdapterT else none)
        true (.ok ()) [] "discord" "100" "telegram" "200" 7).connections "200",
       c.targetPlatform = "discord" ∧ c.targetChannelID = "100") :=
  claim_C3 _ true [] "discord" "100" "telegram" "200" 7 wAdapterD wAdapterT rfl rfl

/-- C5: for every state in which no edge exists for the given (source
channel, target platform) pair, `RemoveBridge` fails with a not-found
error, attempts no store write, and leaves the in-memory graph
unchanged. -/
theorem claim_C5 (hasDB : Bool) (removeRes : Except String Unit) (m : ConnMap)
    (sc tp : String) (h : ∀ c ∈ mapGet m sc, c.targetPlatform ≠ tp) :
    (∃ e, (RemoveBridge hasDB removeRes m sc tp).result = .error e ∧
      e.isNotFound = true) ∧
    (RemoveBridge hasDB removeRes m sc tp).connections = m ∧
    (RemoveBridge hasDB removeRes m sc tp).storeWriteAttempted = false := by
  unfold RemoveBridge
  cases hf : mapFind? m sc with
  | none =>
    simp only [hf]
    exact ⟨⟨.noBridgesFound sc, rfl, rfl⟩, trivial, trivial⟩
  | some conns =>
    have hg : mapGet m sc = conns := by unfold mapGet; rw [hf]; rfl
    have hn : removeFirstByTarget conns tp = none := by
      apply removeFirstByTarget_eq_none
      intro c hc
      exact h c (by rw [hg]; exact hc)
    simp only [hf, hn]
    exact ⟨⟨.bridgeNotFound tp sc, rfl, rfl⟩, trivial, trivial⟩

/-- Witness for C5: a graph whose only channel-1 edge targets telegram;
removal of a discord bridge from channel 1 is rejected without any
change. -/
theorem claim_C5_witness :
    (∃ e, (RemoveBridge true (.ok ()) [("1", [mkConn "a" "1" "telegram" "2" 0])]
        "1" "discord").result = .error e ∧ e.isNotFound = true) ∧
    (RemoveBridge true (.ok ()) [("1", [mkConn "a" "1" "telegram" "2" 0])]
        "1" "discord").connections = [("1", [mkConn "a" "1" "telegram" "2" 0])] ∧
    (RemoveBridge true (.ok ()) [("1", [mkConn "a" "1" "telegram" "2" 0])]
        "1" "discord").storeWriteAttempted = false :=
  claim_C5 true (.ok ()) [("1", [mkConn "a" "1" "telegram" "2" 0])] "1" "discord"
    (by decide)

/-- C4: after `addBridge(A,ch1,B,ch2)` on an empty graph, a successful
`removeBridge(ch1,B)` deletes both directions: the routes of `ch1` no
longer contain any edge targeting platform `B` and the routes of `ch2`
no longer contain any edge targeting platform `A`. -/
theorem claim_C4 (platforms : PlatformMap) (A ch1 B ch2 : String) (now : Nat)
    (aA aB : Adapter) (hA : platforms A = some aA) (hB : platforms B = some aB)
    (hch : ch1 ≠ ch2) (removeRes : Except String Unit) :
    (AddBridge platforms true (.ok ()) [] A ch1 B ch2 now).result = .ok () ∧
    (RemoveBridge true removeRes
        (AddBridge platforms true (.ok ()) [] A ch1 B ch2 now).connections
        ch1 B).result = .ok () ∧
    (∀ c ∈ GetBridges (RemoveBridge true removeRes
        (AddBridge platforms true (.ok ()) [] A ch1 B ch2 now).connections
        ch1 B).connections ch1, c.targetPlatform ≠ B) ∧
    (∀ c ∈ GetBridges (RemoveBridge true removeRes
        (AddBridge platforms true (.ok ()) [] A ch1 B ch2 now).connections
        ch1 B).connections ch2, c.targetPlatform ≠ A) := by
  rw [addBridge_ok platforms true [] A ch1 B ch2 now aA aB hA hB]
  have h1 : addEdges [] A ch1 B ch2 now =
      [(ch1, [mkConn A ch1 B ch2 now]), (ch2, [mkConn B ch2 A ch1 now])] := by
    simp [addEdges, appendConn, mapGet, mapFind?, mapSet, hch, Ne.symm hch]
  rw [h1]
  have h2 : RemoveBridge true removeRes
      [(ch1, [mkConn A ch1 B ch2 now]), (ch2, [mkConn B ch2 A ch1 now])] ch1 B =
      ⟨.ok (), [(ch1, []), (ch2, [])], true⟩ := by
    simp [RemoveBridge, removeFirstByTarget, removeFirstReverse?, mapSet,
      mapGet, mapFind?, mkConn, hch, Ne.symm hch]
  rw [h2]
  exact ⟨rfl, rfl, by simp [GetBridges, mapGet, mapFind?, hch],
    by simp [GetBridges, mapGet, mapFind?, hch, Ne.symm hch]⟩

/-- Witness for C4 at the concrete scenario discord#100 ↔ telegram#200. -/
theorem claim_C4_witness :
    (AddBridge
        (fun n => if n = "discord" then some wAdapterD else
                  if n = "telegram" then some wAdapterT else none)
        true (.ok ()) [] "discord" "100" "telegram" "200" 7).result = .ok () ∧
    (RemoveBridge true (.ok ())
        (AddBridge
          (fun n => if n = "discord" then some wAdapterD else
                    if n = "telegram" then some wAdapterT else none)
          true (.ok ()) [] "discord" "100" "telegram" "200" 7).connections
        "100" "telegram").result = .ok () ∧
    (∀ c ∈ GetBridges (RemoveBridge true (.ok ())
        (AddBridge
          (fun n => if n = "discord" then some wAdapterD else
                    if n = "telegram" then some wAdapterT else none)
          true (.ok ()) [] "discord" "100" "telegram" "200" 7).connections
        "100" "telegram").connections "100", c.targetPlatform ≠ "telegram") ∧
    (∀ c ∈ GetBridges (RemoveBridge true (.ok ())
        (AddBridge
          (fun n => if n = "discord" then some wAdapterD else
                    if n = "telegram" then some wAdapterT else none)
          true (.ok ()) [] "discord" "100" "telegram" "200" 7).connections
        "100" "telegram").connections "200", c.targetPlatform ≠ "discord") :=
  claim_C4 _ "discord" "100" "telegram" "200" 7 wAdapterD wAdapterT rfl rfl
    (by decide) (.ok ())

/-- C9: a message whose source channel has zero configured routes in
the connection graph yields no delivery attempt and `ProcessMessage`
returns success, not an error. -/
theorem claim_C9 (platforms : PlatformMap) (m : ConnMap) (msg : BridgeMessage)
    (h : mapGet m msg.sourceChannelID = []) :
    ProcessMessage platforms m msg = ([], .ok ()) := by
  unfold ProcessMessage
  rw [h]
  rfl

/-- Witness for C9: a channel key present with an empty route list
(the Go `len == 0` path) yields the empty trace and success. -/
theorem claim_C9_witness :
    ProcessMessage (fun _ => none) [("9", [])]
      ⟨"m1", "discord", "9", "u1", "alice", "hi", "text", 0⟩ = ([], .ok ()) :=
  claim_C9 (fun _ => none) [("9", [])]
    ⟨"m1", "discord", "9", "u1", "alice", "hi", "text", 0⟩ rfl

/-- C2 counterexample state: one established bridge discord#1 ↔
telegram#2 (both directions present). -/
def exC2map : ConnMap :=
  [("1", [mkConn "discord" "1" "telegram" "2" 0]),
   ("2", [mkConn "telegram" "2" "discord" "1" 0])]

/-- C2 as stated is false for `RemoveBridge`: with the store write
failing ("disk full"), the call still returns success and the in-memory
graph is not in its pre-call state — the removal was applied before the
failed store write and the error was swallowed. -/
theorem claim_C2_counterexample :
    (RemoveBridge true (.error "disk full") exC2map "1" "telegram").result
      = .ok () ∧
    (RemoveBridge true (.error "disk full") exC2map "1" "telegram").connections
      ≠ exC2map :=
  ⟨rfl, by decide⟩

/-- C2 (amended): a failed store write aborts `AddBridge` with the
wrapped error and leaves the graph unchanged; `RemoveBridge`, however,
applies its in-memory removal before the store write and its outcome
(result and resulting graph) is entirely independent of whether the
store write succeeds or fails — the store error is only logged. -/
theorem claim_C2 (platforms : PlatformMap) (m : ConnMap) (hasDB : Bool)
    (e : String) (sp sc tp tc : String) (now : Nat) (aS aT : Adapter)
    (hS : platforms sp = some aS) (hT : platforms tp = some aT) :
    ((AddBridge platforms true (.error e) m sp sc tp tc now).result
        = .error (.saveFailed e) ∧
     (AddBridge platforms true (.error e) m sp sc tp tc now).connections = m) ∧
    (∀ removeRes sc' tp',
      RemoveBridge hasDB removeRes m sc' tp' =
        RemoveBridge hasDB (.ok ()) m sc' tp') := by
  constructor
  · unfold AddBridge
    rw [hS, hT]
    exact ⟨rfl, rfl⟩
  · intro _ _ _
    rfl

/-- Witness for C2 (amended) at the counterexample state: the failed
add leaves the graph alone, and the failed remove behaves exactly like
the successful remove. -/
theorem claim_C2_witness :
    ((AddBridge
        (fun n => if n = "discord" then some wAdapterD else
                  if n = "telegram" then some wAdapterT else none)
        true (.error "disk full") exC2map "discord" "1" "telegram" "2" 3).result
        = .error (.saveFailed "disk full") ∧
     (AddBridge
        (fun n => if n = "discord" then some wAdapterD else
                  if n = "telegram" then some wAdapterT else none)
        true (.error "disk full") exC2map "discord" "1" "telegram" "2" 3).connections
        = exC2map) ∧
    RemoveBridge true (.error "disk full") exC2map "1" "telegram" =
      RemoveBridge true (.ok ()) exC2map "1" "telegram" :=
  ⟨(claim_C2 _ exC2map true "disk full" "discord" "1" "telegram" "2" 3
      wAdapterD wAdapterT rfl rfl).1,
   (claim_C2 (fun n => if n = "discord" then some wAdapterD else
                  if n = "telegram" then some wAdapterT else none)
      exC2map true "disk full" "discord" "1" "telegram" "2" 3
      wAdapterD wAdapterT rfl rfl).2 (.error "disk full") "1" "telegram"⟩

/-! ### Fan-out lemmas -/

/-- `ProcessMessage` returns nil on every path. -/
theorem processMessage_ok (platforms : PlatformMap) (m : ConnMap)
    (msg : BridgeMessage) : (ProcessMessage platforms m msg).2 = .ok () := by
  unfold ProcessMessage
  by_cases h : (mapGet m msg.sourceChannelID).length = 0 <;> simp [h]

/-- The delivery trace of `ProcessMessage` is the concatenation of the
per-edge traces, in route order. -/
theorem processMessage_trace (platforms : PlatformMap) (m : ConnMap)
    (msg : BridgeMessage) :
    (ProcessMessage platforms m msg).1 =
      (mapGet m msg.sourceChannelID).flatMap (processConnection platforms msg) := by
  unfold ProcessMessage
  by_cases h : (mapGet m msg.sourceChannelID).length = 0
  · rw [List.length_eq_zero] at h
    simp [h]
  · simp [h]

/-- An edge whose target adapter is unregistered or reports not
connected contributes no delivery attempt. -/
theorem processConnection_unavailable (platforms : PlatformMap)
    (msg : BridgeMessage) (c : BridgeConnection)
    (h : platforms c.targetPlatform = none ∨
      ∃ a, platforms c.targetPlatform = some a ∧ a.connected = false) :
    processConnection platforms msg c = [] := by
  by_cases hia : c.isActive = false
  · simp [processConnection, hia]
  · rcases h with h | ⟨a, ha, hcn⟩
    · simp [processConnection, hia, h]
    · simp [processConnection, hia, ha, hcn]

/-- An active edge whose target adapter is connected and whose sends
succeed produces a successful delivery attempt at the edge's target. -/
theorem processConnection_delivers (platforms : PlatformMap)
    (msg : BridgeMessage) (c : BridgeConnection) (a : Adapter)
    (hact : c.isActive = true) (ha : platforms c.targetPlatform = some a)
    (hcn : a.connected = true)
    (hrich : a.richOk c.targetChannelID msg = true)
    (hsend : a.sendOk c.targetChannelID (a.fmt msg) = true) :
    ∃ att ∈ processConnection platforms msg c,
      att.targetPlat = c.targetPlatform ∧ att.targetChan = c.targetChannelID ∧
      att.succeeded = true := by
  unfold processConnection
  rw [ha]
  by_cases hd : c.targetPlatform = PlatformDiscord <;>
    by_cases hda : a.isDiscordAdapter = true <;>
      simp [hact, hcn, hd, hda, hrich, hsend,
        Attempt.targetPlat, Attempt.targetChan, Attempt.succeeded]

/-- Counting attempts distributes over trace concatenation. -/
theorem countAttemptsTo_append (l1 l2 : List Attempt) (p ch : String) :
    countAttemptsTo (l1 ++ l2) p ch =
      countAttemptsTo l1 p ch + countAttemptsTo l2 p ch := by
  unfold countAttemptsTo
  rw [List.filter_append, List.length_append]

/-- Every active edge with a connected target adapter contributes at
least one delivery attempt aimed at its own target. -/
theorem one_le_countAttemptsTo_processConnection (platforms : PlatformMap)
    (msg : BridgeMessage) (c : BridgeConnection) (a : Adapter)
    (hact : c.isActive = true) (ha : platforms c.targetPlatform = some a)
    (hcn : a.connected = true) :
    1 ≤ countAttemptsTo (processConnection platforms msg c)
        c.targetPlatform c.targetChannelID := by
  unfold processConnection
  rw [ha]
  by_cases hd : c.targetPlatform = PlatformDiscord <;>
    by_cases hda : a.isDiscordAdapter = true <;>
      by_cases hr : a.richOk c.targetChannelID msg = true <;>
        simp [hact, hcn, hd, hda, hr, countAttemptsTo,
          Attempt.targetPlat, Attempt.targetChan, List.filter]

/-- The trace of a fanned-out route list contains at least the attempts
of each of its member edges. -/
theorem countAttemptsTo_flatMap_ge (f : BridgeConnection → List Attempt)
    (l : List BridgeConnection) (e : BridgeConnection) (he : e ∈ l)
    (p ch : String) :
    countAttemptsTo (f e) p ch ≤ countAttemptsTo (l.flatMap f) p ch := by
  induction l with
  | nil => cases he
  | cons x rest ih =>
    rw [List.flatMap_cons, countAttemptsTo_append]
    rcases List.mem_cons.mp he with h | h
    · subst h
      exact Nat.le_add_right _ _
    · exact le_trans (ih h) (Nat.le_add_left _ _)

/-! ### Claim theorems: fan-out -/

/-- C7: during fan-out over a channel with two active edges, if one
edge's target adapter is unregistered or reports not connected, that
edge is skipped (contributes nothing to the trace) while the message is
still delivered to the other edge's target, and `ProcessMessage` still
returns success. -/
theorem claim_C7 (platforms : PlatformMap) (m : ConnMap) (msg : BridgeMessage)
    (c1 c2 : BridgeConnection) (a2 : Adapter)
    (hconns : mapGet m msg.sourceChannelID = [c1, c2])
    (hact1 : c1.isActive = true) (hact2 : c2.isActive = true)
    (hun : platforms c1.targetPlatform = none ∨
      ∃ a1, platforms c1.targetPlatform = some a1 ∧ a1.connected = false)
    (ha2 : platforms c2.targetPlatform = some a2) (hcn2 : a2.connected = true)
    (hrich : a2.richOk c2.targetChannelID msg = true)
    (hsend : a2.sendOk c2.targetChannelID (a2.fmt msg) = true) :
    (ProcessMessage platforms m msg).2 = .ok () ∧
    (ProcessMessage platforms m msg).1 = processConnection platforms msg c2 ∧
    ∃ att ∈ (ProcessMessage platforms m msg).1,
      att.targetPlat = c2.targetPlatform ∧ att.targetChan = c2.targetChannelID ∧
      att.succeeded = true := by
  have hskip := processConnection_unavailable platforms msg c1 hun
  have htrace : (ProcessMessage platforms m msg).1 =
      processConnection platforms msg c2 := by
    rw [processMessage_trace, hconns]
    simp [hskip]
  refine ⟨processMessage_ok platforms m msg, htrace, ?_⟩
  rw [htrace]
  exact processConnection_delivers platforms msg c2 a2 hact2 ha2 hcn2 hrich hsend

/-- A connected Discord adapter whose webhook send always fails and
whose generic send also fails, for witnesses. -/
def wAdapterDBad : Adapter :=
  { name := "discord", connected := true, isDiscordAdapter := true,
    richOk := fun _ _ => false, fmt := fun msg => msg.content,
    sendOk := fun _ _ => false }

/-- A disconnected Telegram adapter for witnesses. -/
def wAdapterTOff : Adapter :=
  { name := "telegram", connected := false, isDiscordAdapter := false,
    richOk := fun _ _ => false, fmt := fun msg => msg.content,
    sendOk := fun _ _ => true }

/-- Witness for C7: the telegram edge's adapter is disconnected, the
discord edge still receives the message, and the call succeeds. -/
theorem claim_C7_witness :
    (ProcessMessage
        (fun n => if n = "telegram" then some wAdapterTOff else
                  if n = "discord" then some wAdapterD else none)
        [("5", [mkConn "discord" "5" "telegram" "7" 0,
                mkConn "telegram" "5" "discord" "8" 0])]
        ⟨"m1", "telegram", "5", "u1", "alice", "hi", "text", 0⟩).2 = .ok () ∧
    (ProcessMessage
        (fun n => if n = "telegram" then some wAdapterTOff else
                  if n = "discord" then some wAdapterD else none)
        [("5", [mkConn "discord" "5" "telegram" "7" 0,
                mkConn "telegram" "5" "discord" "8" 0])]
        ⟨"m1", "telegram", "5", "u1", "alice", "hi", "text", 0⟩).1 =
      processConnection
        (fun n => if n = "telegram" then some wAdapterTOff else
                  if n = "discord" then some wAdapterD else none)
        ⟨"m1", "telegram", "5", "u1", "alice", "hi", "text", 0⟩
        (mkConn "telegram" "5" "discord" "8" 0) ∧
    ∃ att ∈ (ProcessMessage
        (fun n => if n = "telegram" then some wAdapterTOff else
                  if n = "discord" then some wAdapterD else none)
        [("5", [mkConn "discord" "5" "telegram" "7" 0,
                mkConn "telegram" "5" "discord" "8" 0])]
        ⟨"m1", "telegram", "5", "u1", "alice", "hi", "text", 0⟩).1,
      att.targetPlat = (mkConn "telegram" "5" "discord" "8" 0).targetPlatform ∧
      att.targetChan = (mkConn "telegram" "5" "discord" "8" 0).targetChannelID ∧
      att.succeeded = true :=
  claim_C7 _ _ _ (mkConn "discord" "5" "telegram" "7" 0)
    (mkConn "telegram" "5" "discord" "8" 0) wAdapterD rfl rfl rfl
    (Or.inr ⟨wAdapterTOff, rfl, rfl⟩) rfl rfl rfl rfl

/-- C8: when a Discord target edge's rich webhook delivery fails, the
fan-out falls back exactly once to the generic format-and-send path for
that edge (whatever that fallback's own outcome), the remaining edges
are still processed, and `ProcessMessage` returns success. -/
theorem claim_C8 (platforms : PlatformMap) (m : ConnMap) (msg : BridgeMessage)
    (c1 c2 : BridgeConnection) (a : Adapter)
    (hconns : mapGet m msg.sourceChannelID = [c1, c2])
    (hact1 : c1.isActive = true)
    (hd : c1.targetPlatform = PlatformDiscord)
    (ha : platforms PlatformDiscord = some a)
    (hcn : a.connected = true) (hda : a.isDiscordAdapter = true)
    (hrich : a.richOk c1.targetChannelID msg = false) :
    (ProcessMessage platforms m msg).1 =
      Attempt.rich PlatformDiscord c1.targetChannelID false ::
      Attempt.generic PlatformDiscord c1.targetChannelID (a.fmt msg)
        (a.sendOk c1.targetChannelID (a.fmt msg)) ::
      processConnection platforms msg c2 ∧
    (ProcessMessage platforms m msg).2 = .ok () := by
  have h1 : processConnection platforms msg c1 =
      [Attempt.rich PlatformDiscord c1.targetChannelID false,
       Attempt.generic PlatformDiscord c1.targetChannelID (a.fmt msg)
         (a.sendOk c1.targetChannelID (a.fmt msg))] := by
    unfold processConnection
    rw [hd, ha]
    simp [hact1, hcn, hda, hrich]
  constructor
  · rw [processMessage_trace, hconns]
    simp [h1]
  · exact processMessage_ok platforms m msg

/-- Witness for C8: rich delivery and fallback both fail on the discord
edge; the telegram edge is still processed. -/
theorem claim_C8_witness :
    (ProcessMessage
        (fun n => if n = "discord" then some wAdapterDBad else
                  if n = "telegram" then some wAdapterT else none)
        [("5", [mkConn "telegram" "5" "discord" "8" 0,
                mkConn "discord" "5" "telegram" "9" 0])]
        ⟨"m1", "telegram", "5", "u1", "alice", "hi", "text", 0⟩).1 =
      Attempt.rich PlatformDiscord
          (mkConn "telegram" "5" "discord" "8" 0).targetChannelID false ::
      Attempt.generic PlatformDiscord
          (mkConn "telegram" "5" "discord" "8" 0).targetChannelID
          (wAdapterDBad.fmt ⟨"m1", "telegram", "5", "u1", "alice", "hi", "text", 0⟩)
          (wAdapterDBad.sendOk (mkConn "telegram" "5" "discord" "8" 0).targetChannelID
            (wAdapterDBad.fmt ⟨"m1", "telegram", "5", "u1", "alice", "hi", "text", 0⟩)) ::
      processConnection
        (fun n => if n = "discord" then some wAdapterDBad else
                  if n = "telegram" then some wAdapterT else none)
        ⟨"m1", "telegram", "5", "u1", "alice", "hi", "text", 0⟩
        (mkConn "discord" "5" "telegram" "9" 0) ∧
    (ProcessMessage
        (fun n => if n = "discord" then some wAdapterDBad else
                  if n = "telegram" then some wAdapterT else none)
        [("5", [mkConn "telegram" "5" "discord" "8" 0,
                mkConn "discord" "5" "telegram" "9" 0])]
        ⟨"m1", "telegram", "5", "u1", "alice", "hi", "text", 0⟩).2 = .ok () :=
  claim_C8 _ _ _ (mkConn "telegram" "5" "discord" "8" 0)
    (mkConn "discord" "5" "telegram" "9" 0) wAdapterDBad rfl rfl rfl rfl rfl rfl rfl

/-- C10: `AddBridge` performs no duplicate detection: from a state
whose graph already contains the forward and reverse edges for
`(A,ch1,B,ch2)`, a repeated `addBridge` with the same arguments (both
platforms registered, persistence succeeding) succeeds and appends a
second forward edge under `ch1` and a second reverse edge under `ch2`
(field-for-field identical to the first pair when created at the same
instant), so a subsequent fan-out from `ch1` attempts delivery to the
target `(B,ch2)` at least twice. -/
theorem claim_C10 (platforms : PlatformMap) (m : ConnMap)
    (A ch1 B ch2 : String) (now : Nat) (aA aB : Adapter) (msg : BridgeMessage)
    (hA : platforms A = some aA) (hB : platforms B = some aB)
    (hch : ch1 ≠ ch2)
    (e1 e2 : BridgeConnection) (he1 : e1 ∈ mapGet m ch1) (he2 : e2 ∈ mapGet m ch2)
    (he1t : e1.targetPlatform = B ∧ e1.targetChannelID = ch2 ∧ e1.isActive = true)
    (he2t : e2.targetPlatform = A ∧ e2.targetChannelID = ch1)
    (hmsg : msg.sourceChannelID = ch1)
    (hcn : aB.connected = true) :
    (AddBridge platforms true (.ok ()) m A ch1 B ch2 now).result = .ok () ∧
    mapGet (AddBridge platforms true (.ok ()) m A ch1 B ch2 now).connections ch1
      = mapGet m ch1 ++ [mkConn A ch1 B ch2 now] ∧
    mapGet (AddBridge platforms true (.ok ()) m A ch1 B ch2 now).connections ch2
      = mapGet m ch2 ++ [mkConn B ch2 A ch1 now] ∧
    2 ≤ countAttemptsTo
        (ProcessMessage platforms
          (AddBridge platforms true (.ok ()) m A ch1 B ch2 now).connections msg).1
        B ch2 := by
  rw [addBridge_ok platforms true m A ch1 B ch2 now aA aB hA hB]
  have hsrc : mapGet (addEdges m A ch1 B ch2 now) ch1
      = mapGet m ch1 ++ [mkConn A ch1 B ch2 now] := by
    unfold addEdges
    rw [mapGet_appendConn, if_neg (Ne.symm hch), mapGet_appendConn, if_pos rfl]
  have htgt : mapGet (addEdges m A ch1 B ch2 now) ch2
      = mapGet m ch2 ++ [mkConn B ch2 A ch1 now] := by
    unfold addEdges
    rw [mapGet_appendConn, if_pos rfl, mapGet_appendConn, if_neg hch]
  refine ⟨rfl, hsrc, htgt, ?_⟩
  rw [processMessage_trace, hmsg]
  show 2 ≤ countAttemptsTo ((mapGet (addEdges m A ch1 B ch2 now) ch1).flatMap
    (processConnection platforms msg)) B ch2
  rw [hsrc, List.flatMap_append, countAttemptsTo_append]
  have hcount1 : 1 ≤ countAttemptsTo
      ((mapGet m ch1).flatMap (processConnection platforms msg)) B ch2 := by
    have h1 := one_le_countAttemptsTo_processConnection platforms msg e1 aB
      he1t.2.2 (by rw [he1t.1, hB]) hcn
    rw [he1t.1, he1t.2.1] at h1
    exact le_trans h1 (countAttemptsTo_flatMap_ge _ _ e1 he1 B ch2)
  have hcount2 : 1 ≤ countAttemptsTo
      ([mkConn A ch1 B ch2 now].flatMap (processConnection platforms msg)) B ch2 := by
    have h2 := one_le_countAttemptsTo_processConnection platforms msg
      (mkConn A ch1 B ch2 now) aB rfl (by rw [show (mkConn A ch1 B ch2 now).targetPlatform = B from rfl, hB]) hcn
    simp only [List.flatMap_cons, List.flatMap_nil, List.append_nil]
    exact h2
  omega

/-- Witness for C10: repeat the discord#1 ↔ telegram#2 add on a state
already holding that pair; the duplicate pair is appended and fan-out
from channel 1 attempts delivery to telegram#2 twice. -/
theorem claim_C10_witness :
    (AddBridge
        (fun n => if n = "discord" then some wAdapterD else
                  if n = "telegram" then some wAdapterT else none)
        true (.ok ()) exC2map "discord" "1" "telegram" "2" 0).result = .ok () ∧
    mapGet (AddBridge
        (fun n => if n = "discord" then some wAdapterD else
                  if n = "telegram" then some wAdapterT else none)
        true (.ok ()) exC2map "discord" "1" "telegram" "2" 0).connections "1"
      = mapGet exC2map "1" ++ [mkConn "discord" "1" "telegram" "2" 0] ∧
    mapGet (AddBridge
        (fun n => if n = "discord" then some wAdapterD else
                  if n = "telegram" then some wAdapterT else none)
        true (.ok ()) exC2map "discord" "1" "telegram" "2" 0).connections "2"
      = mapGet exC2map "2" ++ [mkConn "telegram" "2" "discord" "1" 0] ∧
    2 ≤ countAttemptsTo
        (ProcessMessage
          (fun n => if n = "discord" then some wAdapterD else
                    if n = "telegram" then some wAdapterT else none)
          (AddBridge
            (fun n => if n = "discord" then some wAdapterD else
                      if n = "telegram" then some wAdapterT else none)
            true (.ok ()) exC2map "discord" "1" "telegram" "2" 0).connections
          ⟨"m1", "discord", "1", "u1", "alice", "hi", "text", 0⟩).1
        "telegram" "2" :=
  claim_C10 _ exC2map "discord" "1" "telegram" "2" 0 wAdapterD wAdapterT
    ⟨"m1", "discord", "1", "u1", "alice", "hi", "text", 0⟩ rfl rfl (by decide)
    (mkConn "discord" "1" "telegram" "2" 0) (mkConn "telegram" "2" "discord" "1" 0)
    (by decide) (by decide) (by decide) (by decide) rfl rfl

/-! ### Startup rebuild lemmas -/

/-- The identity of a channel: its platform tag together with the
platform-native channel id (the `UNIQUE(platform, platform_room_id)`
key of the `room_mappings` table). -/
def mappingKey (m : RoomMapping) : String × String := (m.platform, m.platformRoomID)

theorem crossPairs_length (l processed : List RoomMapping) :
    (crossPairs processed l).length = l.length * (processed.length + l.length - 1) := by
  induction l generalizing processed with
  | nil => simp [crossPairs]
  | cons s rest ih =>
    have hr := ih (processed ++ [s])
    simp only [List.length_append, List.length_cons, List.length_nil] at hr
    simp only [crossPairs, List.length_append, List.length_map, List.length_cons, hr]
    have h1 : processed.length + (0 + 1) + rest.length - 1
        = processed.length + rest.length := by omega
    have h2 : processed.length + (rest.length + 1) - 1
        = processed.length + rest.length := by omega
    rw [h1, h2, Nat.succ_mul]
    generalize rest.length * (processed.length + rest.length) = q
    omega

/-- Pairs produced by the double loop never pair a mapping with one
carrying the same (platform, channel) key, provided the keys in the
room group are pairwise distinct. -/
theorem crossPairs_key_ne (l : List RoomMapping) (processed : List RoomMapping)
    (h : (processed ++ l).Pairwise (fun a b => mappingKey a ≠ mappingKey b)) :
    ∀ p ∈ crossPairs processed l, mappingKey p.1 ≠ mappingKey p.2 := by
  induction l generalizing processed with
  | nil => intro p hp; cases hp
  | cons s rest ih =>
    intro p hp
    rw [crossPairs] at hp
    rcases List.mem_append.mp hp with hp | hp
    · obtain ⟨t, ht, rfl⟩ := List.mem_map.mp hp
      have hmid : (s :: (processed ++ rest)).Pairwise
          (fun a b => mappingKey a ≠ mappingKey b) :=
        (List.pairwise_middle (fun hab e => hab e.symm)).mp h
      exact (List.pairwise_cons.mp hmid).1 t ht
    · apply ih (processed ++ [s]) ?_ p hp
      have hassoc : (processed ++ [s]) ++ rest = processed ++ s :: rest := by
        simp
      rw [hassoc]
      exact h

theorem connTotal_appendConn (m : ConnMap) (k : String) (c : BridgeConnection) :
    connTotal (appendConn m k c) = connTotal m + 1 := by
  unfold appendConn
  induction m with
  | nil => simp [mapSet, mapGet, mapFind?, connTotal]
  | cons kv rest ih =>
    obtain ⟨k0, v0⟩ := kv
    by_cases h : k0 = k
    · subst h
      simp [mapSet, mapGet, mapFind?, connTotal]
      omega
    · simp only [mapGet, mapFind?, if_neg h] at ih ⊢
      simp only [mapSet, if_neg h, connTotal, List.map_cons, List.sum_cons] at ih ⊢
      omega

theorem connTotal_foldl_append (es : List BridgeConnection) (m : ConnMap) :
    connTotal (es.foldl (fun acc e => appendConn acc e.sourceChannelID e) m)
      = connTotal m + es.length := by
  induction es generalizing m with
  | nil => simp
  | cons e rest ih =>
    rw [List.foldl_cons, ih, connTotal_appendConn, List.length_cons]
    omega

theorem connTotal_rooms_foldl (rows : List RoomMapping) (rids : List Nat)
    (m0 : ConnMap) :
    connTotal (rids.foldl (fun acc rid =>
        (loadRoomEdges rid (roomGroup rows rid)).foldl
          (fun m e => appendConn m e.sourceChannelID e) acc) m0)
      = connTotal m0 +
        (rids.map (fun r => (loadRoomEdges r (roomGroup rows r)).length)).sum := by
  induction rids generalizing m0 with
  | nil => simp
  | cons rid rest ih =>
    rw [List.foldl_cons, ih, connTotal_foldl_append, List.map_cons, List.sum_cons]
    omega

/-- C1: for every room whose active mappings (with an active bridge
config) number `N ≥ 2` and carry pairwise-distinct (platform, channel)
keys, the startup rebuild generates exactly `N * (N - 1)` directed
edges for that room, none of which routes a channel to itself (source
and target platform-qualified channels always differ); and the rebuilt
graph holds exactly the per-room generated edges, no more and no
fewer. -/
theorem claim_C1 (ms : List RoomMapping) (cfgs : List BridgeConfigRow) (rid : Nat)
    (hN : 2 ≤ (roomGroup (GetAllActiveBridges ms cfgs) rid).length)
    (hkeys : (roomGroup (GetAllActiveBridges ms cfgs) rid).Pairwise
      (fun a b => mappingKey a ≠ mappingKey b)) :
    (loadRoomEdges rid (roomGroup (GetAllActiveBridges ms cfgs) rid)).length
      = (roomGroup (GetAllActiveBridges ms cfgs) rid).length *
        ((roomGroup (GetAllActiveBridges ms cfgs) rid).length - 1) ∧
    (∀ e ∈ loadRoomEdges rid (roomGroup (GetAllActiveBridges ms cfgs) rid),
      (e.sourcePlatform, e.sourceChannelID) ≠ (e.targetPlatform, e.targetChannelID)) ∧
    connTotal (loadBridgesFromDB ms cfgs) =
      ((roomIDsOf (GetAllActiveBridges ms cfgs)).map
        (fun r => (loadRoomEdges r
          (roomGroup (GetAllActiveBridges ms cfgs) r)).length)).sum := by
  refine ⟨?_, ?_, ?_⟩
  · rw [loadRoomEdges, if_neg (by omega), List.length_map, crossPairs_length]
    simp
  · intro e he
    rw [loadRoomEdges, if_neg (by omega)] at he
    obtain ⟨p, hp, rfl⟩ := List.mem_map.mp he
    have hne := crossPairs_key_ne _ [] (by simpa using hkeys) p hp
    exact fun hcontra => hne hcontra
  · show connTotal ((roomIDsOf (GetAllActiveBridges ms cfgs)).foldl _ []) = _
    rw [connTotal_rooms_foldl]
    simp [connTotal]

/-- Sample `room_mappings` rows for witnesses: room 1 has three active
mappings and one inactive, room 2 has two active mappings but an
inactive bridge config. -/
def wRowsC1 : List RoomMapping :=
  [⟨1, "discord", "100", "r", "channel", true, 0⟩,
   ⟨1, "telegram", "200", "r", "channel", true, 1⟩,
   ⟨1, "matrix", "300", "r", "channel", true, 2⟩,
   ⟨1, "irc", "400", "r", "channel", false, 3⟩,
   ⟨2, "discord", "500", "r2", "channel", true, 4⟩,
   ⟨2, "telegram", "600", "r2", "channel", true, 5⟩]

/-- Sample `bridge_config` rows for witnesses: room 1 active, room 2
deactivated. -/
def wCfgsC1 : List BridgeConfigRow := [⟨1, true⟩, ⟨2, false⟩]

/-- Witness for C1: one room (id 1) with three active mappings and an
active config, plus an inactive mapping and a room with an inactive
config, both of which are filtered out. -/
theorem claim_C1_witness :
    (loadRoomEdges 1 (roomGroup (GetAllActiveBridges wRowsC1 wCfgsC1) 1)).length
      = (roomGroup (GetAllActiveBridges wRowsC1 wCfgsC1) 1).length *
        ((roomGroup (GetAllActiveBridges wRowsC1 wCfgsC1) 1).length - 1) ∧
    (∀ e ∈ loadRoomEdges 1 (roomGroup (GetAllActiveBridges wRowsC1 wCfgsC1) 1),
      (e.sourcePlatform, e.sourceChannelID) ≠ (e.targetPlatform, e.targetChannelID)) ∧
    connTotal (loadBridgesFromDB wRowsC1 wCfgsC1) =
      ((roomIDsOf (GetAllActiveBridges wRowsC1 wCfgsC1)).map
        (fun r => (loadRoomEdges r
          (roomGroup (GetAllActiveBridges wRowsC1 wCfgsC1) r)).length)).sum :=
  claim_C1 wRowsC1 wCfgsC1 1 (by decide) (by decide)

/-! ### Rebuild idempotence: the edge multiset is iteration-order
independent -/

/-- The self-pair of a mapping (the diagonal the double loop skips). -/
def diagPair (s : RoomMapping) : RoomMapping × RoomMapping := (s, s)

/-- All ordered pairs from `l` against the fixed target list `full`. -/
def pairAll (l full : List RoomMapping) : List (RoomMapping × RoomMapping) :=
  l.foldr (fun s acc => (full.map (fun t => (s, t))) ++ acc) []

theorem pairAll_cons (s : RoomMapping) (rest full : List RoomMapping) :
    pairAll (s :: rest) full = full.map (fun t => (s, t)) ++ pairAll rest full := rfl

/-- Adding back the skipped diagonal, the double loop's pairs are the
full cross product of the list against `processed ++ l`. -/
theorem crossPairs_add_diag (l processed : List RoomMapping) :
    (↑(crossPairs processed l) + ↑(l.map diagPair)
        : Multiset (RoomMapping × RoomMapping))
      = ↑(pairAll l (processed ++ l)) := by
  induction l generalizing processed with
  | nil => simp [crossPairs, pairAll]
  | cons s rest ih =>
    have hih := ih (processed ++ [s])
    have hassoc : (processed ++ [s]) ++ rest = processed ++ s :: rest := by simp
    rw [hassoc] at hih
    have hE : (↑((processed ++ s :: rest).map (fun t => (s, t)))
        : Multiset (RoomMapping × RoomMapping))
        = ↑((processed ++ rest).map (fun t => (s, t))) + {diagPair s} := by
      rw [List.map_append, List.map_append, List.map_cons]
      rw [← Multiset.coe_add, ← Multiset.coe_add, ← Multiset.cons_coe,
        ← Multiset.singleton_add]
      show (↑(List.map (fun t => (s, t)) processed) : Multiset _)
          + ({(s, s)} + ↑(List.map (fun t => (s, t)) rest))
        = ↑(List.map (fun t => (s, t)) processed)
          + ↑(List.map (fun t => (s, t)) rest) + {diagPair s}
      rw [show ((s, s) : RoomMapping × RoomMapping) = diagPair s from rfl]
      abel
    rw [crossPairs, pairAll_cons, List.map_cons]
    rw [← Multiset.coe_add, ← Multiset.coe_add, ← Multiset.cons_coe,
      ← Multiset.singleton_add, hE, ← hih]
    abel

theorem pairAll_congr_full (l full full' : List RoomMapping) (h : full.Perm full') :
    (pairAll l full).Perm (pairAll l full') := by
  induction l with
  | nil => exact List.Perm.refl _
  | cons s rest ih =>
    rw [pairAll_cons, pairAll_cons]
    exact (h.map _).append ih

theorem pairAll_perm_left (l l' full : List RoomMapping) (h : l.Perm l') :
    (pairAll l full).Perm (pairAll l' full) := by
  induction h with
  | nil => exact List.Perm.refl _
  | cons x _ ih =>
    rw [pairAll_cons, pairAll_cons]
    exact (List.Perm.refl _).append ih
  | swap x y l =>
    rw [pairAll_cons, pairAll_cons, pairAll_cons, pairAll_cons]
    rw [← List.append_assoc, ← List.append_assoc]
    exact List.perm_append_comm.append (List.Perm.refl _)
  | trans _ _ ih1 ih2 => exact ih1.trans ih2

/-- Permuted room groups generate permuted pair lists. -/
theorem crossPairs_perm (g g' : List RoomMapping) (h : g.Perm g') :
    (crossPairs [] g).Perm (crossPairs [] g') := by
  have h1 := crossPairs_add_diag g []
  have h2 := crossPairs_add_diag g' []
  rw [List.nil_append] at h1 h2
  have h3 : (↑(pairAll g g) : Multiset (RoomMapping × RoomMapping))
      = ↑(pairAll g' g') :=
    Multiset.coe_eq_coe.mpr
      ((pairAll_congr_full g g g' h).trans (pairAll_perm_left g g' g' h))
  have h4 : (↑(g.map diagPair) : Multiset (RoomMapping × RoomMapping))
      = ↑(g'.map diagPair) := Multiset.coe_eq_coe.mpr (h.map diagPair)
  have h5 := h1.trans (h3.trans h2.symm)
  rw [h4] at h5
  exact Multiset.coe_eq_coe.mp (add_right_cancel h5)

/-- C6: graph reconstruction from identical store state is idempotent
up to the (nondeterministic) Go map iteration order: for any two read
orders of the same active rows, every room generates the same multiset
of edges; and a room with exactly 2 active mappings yields exactly 2
edges while one with 3 yields 6. -/
theorem claim_C6 (ms ms' : List RoomMapping) (cfgs : List BridgeConfigRow)
    (rid : Nat) (h : ms.Perm ms') :
    (loadRoomEdges rid (roomGroup (GetAllActiveBridges ms cfgs) rid)).Perm
      (loadRoomEdges rid (roomGroup (GetAllActiveBridges ms' cfgs) rid)) ∧
    ((roomGroup (GetAllActiveBridges ms cfgs) rid).length = 2 →
      (loadRoomEdges rid (roomGroup (GetAllActiveBridges ms cfgs) rid)).length = 2) ∧
    ((roomGroup (GetAllActiveBridges ms cfgs) rid).length = 3 →
      (loadRoomEdges rid (roomGroup (GetAllActiveBridges ms cfgs) rid)).length = 6) := by
  have hg : (roomGroup (GetAllActiveBridges ms cfgs) rid).Perm
      (roomGroup (GetAllActiveBridges ms' cfgs) rid) := (h.filter _).filter _
  have hlen := hg.length_eq
  refine ⟨?_, ?_, ?_⟩
  · unfold loadRoomEdges
    by_cases h2 : (roomGroup (GetAllActiveBridges ms cfgs) rid).length < 2
    · rw [if_pos h2, if_pos (by omega)]
    · rw [if_neg h2, if_neg (by omega)]
      exact (crossPairs_perm _ _ hg).map _
  · intro hn
    rw [loadRoomEdges, if_neg (by omega), List.length_map, crossPairs_length, hn]
    norm_num
  · intro hn
    rw [loadRoomEdges, if_neg (by omega), List.length_map, crossPairs_length, hn]
    norm_num

/-- The witness rows of C6: `wRowsC1` read back in a different
iteration order. -/
def wRowsC6 : List RoomMapping :=
  [⟨1, "telegram", "200", "r", "channel", true, 1⟩,
   ⟨2, "discord", "500", "r2", "channel", true, 4⟩,
   ⟨1, "discord", "100", "r", "channel", true, 0⟩,
   ⟨1, "matrix", "300", "r", "channel", true, 2⟩,
   ⟨1, "irc", "400", "r", "channel", false, 3⟩,
   ⟨2, "telegram", "600", "r2", "channel", true, 5⟩]

/-- Witness for C6: the two read orders of the same rows generate
permuted (equal-as-multiset) edge lists for room 1, which with its 3
active mappings yields 6 edges. -/
theorem claim_C6_witness :
    (loadRoomEdges 1 (roomGroup (GetAllActiveBridges wRowsC1 wCfgsC1) 1)).Perm
      (loadRoomEdges 1 (roomGroup (GetAllActiveBridges wRowsC6 wCfgsC1) 1)) ∧
    ((roomGroup (GetAllActiveBridges wRowsC1 wCfgsC1) 1).length = 2 →
      (loadRoomEdges 1 (roomGroup (GetAllActiveBridges wRowsC1 wCfgsC1) 1)).length = 2) ∧
    ((roomGroup (GetAllActiveBridges wRowsC1 wCfgsC1) 1).length = 3 →
      (loadRoomEdges 1 (roomGroup (GetAllActiveBridges wRowsC1 wCfgsC1) 1)).length = 6) :=
  claim_C6 wRowsC1 wRowsC6 wCfgsC1 1 (by decide)

end LinkCord
